import Mathlib

set_option maxRecDepth 40000

/-!
Verification of the caching layer and transcript-acquisition strategy of the
`search-influencers` service (files `app/cache.py`, `app/transcript_service.py`,
`app/llm_service.py`, `app/config.py`).

The Python code is shallowly embedded: the SQLite `cache` table becomes an
association list of entries, wall-clock time becomes an explicit `Nat`
parameter measured in minutes, every `try/except` wrapper becomes an explicit
`err : Option String` parameter describing whether the storage layer raises,
and each external provider (supadata.ai HTTP call, LLM call) becomes an
explicit outcome parameter.  `hashlib.md5` and `hashlib.sha256` are
implemented executably below so that the key-derivation functions compute the
genuine digests.
-/

namespace App

/-! ## Bytes, 32-bit arithmetic and hex strings -/

/-- Wrap a natural number to 32 bits. -/
def mask32 (x : Nat) : Nat := x % 4294967296

/-- 32-bit addition. -/
def add32 (a b : Nat) : Nat := mask32 (a + b)

/-- 32-bit left rotation by `n` (for `0 ≤ n < 32`). -/
def rotl32 (n x : Nat) : Nat := mask32 ((x <<< n) ||| (x >>> (32 - n)))

/-- 32-bit right rotation by `n` (for `0 ≤ n < 32`). -/
def rotr32 (n x : Nat) : Nat := mask32 ((x >>> n) ||| (x <<< (32 - n)))

/-- 32-bit complement. -/
def not32 (x : Nat) : Nat := 4294967295 - mask32 x

/-- UTF-8 encoding of a single Unicode code point, as Python `str.encode()`
produces it byte for byte. -/
def utf8Bytes (c : Nat) : List Nat :=
  if c < 128 then [c]
  else if c < 2048 then
    [192 ||| (c >>> 6), 128 ||| (c &&& 63)]
  else if c < 65536 then
    [224 ||| (c >>> 12), 128 ||| ((c >>> 6) &&& 63), 128 ||| (c &&& 63)]
  else
    [240 ||| (c >>> 18), 128 ||| ((c >>> 12) &&& 63),
     128 ||| ((c >>> 6) &&& 63), 128 ||| (c &&& 63)]

/-- The UTF-8 bytes of a string (Python `s.encode()`). -/
def strBytes (s : String) : List Nat :=
  (s.data.map (fun ch => utf8Bytes ch.toNat)).flatten

/-- Lower-case hex digit for a value `< 16`. -/
def hexDigit (n : Nat) : Char :=
  if n < 10 then Char.ofNat (48 + n) else Char.ofNat (87 + n)

/-- Two-digit lower-case hex rendering of one byte. -/
def byteToHex (b : Nat) : List Char :=
  [hexDigit ((b >>> 4) &&& 15), hexDigit (b &&& 15)]

/-- Lower-case hex string of a byte list (Python's `.hexdigest()` format). -/
def bytesToHex (bs : List Nat) : String :=
  String.mk (bs.map byteToHex).flatten

/-- Fuel-driven worker for `chunks`; structural recursion on the fuel keeps
the definition kernel-reducible. -/
def chunksAux (k : Nat) : Nat → List Nat → List (List Nat)
  | 0, _ => []
  | _, [] => []
  | Nat.succ fuel, l => l.take k :: chunksAux k fuel (l.drop k)

/-- Split a list into chunks of `k` elements (`k > 0`; the input length is a
multiple of `k` whenever this is used). -/
def chunks (k : Nat) (l : List Nat) : List (List Nat) :=
  chunksAux k l.length l

/-- Big-endian 32-bit word from four bytes. -/
def wordBE (bs : List Nat) : Nat :=
  bs.foldl (fun acc b => acc * 256 + b) 0

/-- Little-endian 32-bit word from four bytes. -/
def wordLE (bs : List Nat) : Nat :=
  (bs.reverse).foldl (fun acc b => acc * 256 + b) 0

/-- Big-endian byte rendering of `x` using `n` bytes. -/
def natToBytesBE (n x : Nat) : List Nat :=
  (List.range n).reverse.map (fun i => (x >>> (8 * i)) &&& 255)

/-- Little-endian byte rendering of `x` using `n` bytes. -/
def natToBytesLE (n x : Nat) : List Nat :=
  (List.range n).map (fun i => (x >>> (8 * i)) &&& 255)

/-! ## SHA-256 (FIPS 180-4), used by `generate_content_hash` -/

/-- SHA-256 round constants. -/
def sha256K : List Nat :=
  [1116352408, 1899447441, 3049323471, 3921009573, 961987163, 1508970993,
   2453635748, 2870763221, 3624381080, 310598401, 607225278, 1426881987,
   1925078388, 2162078206, 2614888103, 3248222580, 3835390401, 4022224774,
   264347078, 604807628, 770255983, 1249150122, 1555081692, 1996064986,
   2554220882, 2821834349, 2952996808, 3210313671, 3336571891, 3584528711,
   113926993, 338241895, 666307205, 773529912, 1294757372, 1396182291,
   1695183700, 1986661051, 2177026350, 2456956037, 2730485921, 2820302411,
   3259730800, 3345764771, 3516065817, 3600352804, 4094571909, 275423344,
   430227734, 506948616, 659060556, 883997877, 958139571, 1322822218,
   1537002063, 1747873779, 1955562222, 2024104815, 2227730452, 2361852424,
   2428436474, 2756734187, 3204031479, 3329325298]

/-- SHA-256 initial hash state. -/
def sha256H0 : List Nat :=
  [1779033703, 3144134277, 1013904242, 2773480762, 1359893119, 2600822924,
   528734635, 1541459225]

/-- Merkle–Damgård padding shared by SHA-256 and MD5: append `0x80`, zero
bytes to 56 mod 64, then the bit length as 8 bytes (`be = true` for SHA-256's
big-endian length, little-endian for MD5). -/
def padMessage (be : Bool) (msg : List Nat) : List Nat :=
  let bitLen := 8 * msg.length
  let zeroCount := (119 - msg.length % 64) % 64
  let lenBytes := if be then natToBytesBE 8 bitLen else natToBytesLE 8 bitLen
  msg ++ [128] ++ List.replicate zeroCount 0 ++ lenBytes

/-- Message-schedule extension: grow the 16 block words to 64. -/
def sha256Schedule (w : List Nat) : List Nat :=
  (List.range 48).foldl
    (fun acc i =>
      let s0 :=
        (rotr32 7 (acc.getD (i + 1) 0)) ^^^ (rotr32 18 (acc.getD (i + 1) 0))
          ^^^ ((acc.getD (i + 1) 0) >>> 3)
      let s1 :=
        (rotr32 17 (acc.getD (i + 14) 0)) ^^^ (rotr32 19 (acc.getD (i + 14) 0))
          ^^^ ((acc.getD (i + 14) 0) >>> 10)
      acc ++ [add32 (add32 (acc.getD i 0) s0) (add32 (acc.getD (i + 9) 0) s1)])
    w

/-- One SHA-256 compression round. -/
def sha256Round (w : List Nat) (st : List Nat) (i : Nat) : List Nat :=
  let a := st.getD 0 0
  let b := st.getD 1 0
  let c := st.getD 2 0
  let d := st.getD 3 0
  let e := st.getD 4 0
  let f := st.getD 5 0
  let g := st.getD 6 0
  let h := st.getD 7 0
  let s1 := (rotr32 6 e) ^^^ (rotr32 11 e) ^^^ (rotr32 25 e)
  let ch := (e &&& f) ^^^ ((not32 e) &&& g)
  let t1 := add32 (add32 (add32 h s1) (add32 ch (sha256K.getD i 0))) (w.getD i 0)
  let s0 := (rotr32 2 a) ^^^ (rotr32 13 a) ^^^ (rotr32 22 a)
  let mj := (a &&& b) ^^^ (a &&& c) ^^^ (b &&& c)
  let t2 := add32 s0 mj
  [add32 t1 t2, a, b, c, add32 d t1, e, f, g]

/-- Process one 64-byte block. -/
def sha256Block (hst : List Nat) (block : List Nat) : List Nat :=
  let w := sha256Schedule ((chunks 4 block).map wordBE)
  let st := (List.range 64).foldl (sha256Round w) hst
  (List.range 8).map (fun i => add32 (hst.getD i 0) (st.getD i 0))

/-- SHA-256 digest of a byte list. -/
def sha256Bytes (msg : List Nat) : List Nat :=
  let final := (chunks 64 (padMessage true msg)).foldl sha256Block sha256H0
  (final.map (natToBytesBE 4)).flatten

/-- `hashlib.sha256(s.encode()).hexdigest()`. -/
def sha256Hex (s : String) : String :=
  bytesToHex (sha256Bytes (strBytes s))

/-! ## MD5 (RFC 1321), used by `generate_cache_key` -/

/-- MD5 sine-table constants `T[1..64]`. -/
def md5T : List Nat :=
  [3614090360, 3905402710, 606105819, 3250441966, 4118548399, 1200080426,
   2821735955, 4249261313, 1770035416, 2336552879, 4294925233, 2304563134,
   1804603682, 4254626195, 2792965006, 1236535329, 4129170786, 3225465664,
   643717713, 3921069994, 3593408605, 38016083, 3634488961, 3889429448,
   568446438, 3275163606, 4107603335, 1163531501, 2850285829, 4243563512,
   1735328473, 2368359562, 4294588738, 2272392833, 1839030562, 4259657740,
   2763975236, 1272893353, 4139469664, 3200236656, 681279174, 3936430074,
   3572445317, 76029189, 3654602809, 3873151461, 530742520, 3299628645,
   4096336452, 1126891415, 2878612391, 4237533241, 1700485571, 2399980690,
   4293915773, 2240044497, 1873313359, 4264355552, 2734768916, 1309151649,
   4149444226, 3174756917, 718787259, 3951481745]

/-- MD5 per-round left-rotation amounts. -/
def md5S : List Nat :=
  [7, 12, 17, 22, 7, 12, 17, 22, 7, 12, 17, 22, 7, 12, 17, 22,
   5, 9, 14, 20, 5, 9, 14, 20, 5, 9, 14, 20, 5, 9, 14, 20,
   4, 11, 16, 23, 4, 11, 16, 23, 4, 11, 16, 23, 4, 11, 16, 23,
   6, 10, 15, 21, 6, 10, 15, 21, 6, 10, 15, 21, 6, 10, 15, 21]

/-- The MD5 nonlinear function and message index for step `i`. -/
def md5FIdx (i b c d : Nat) : Nat × Nat :=
  if i < 16 then ((b &&& c) ||| ((not32 b) &&& d), i)
  else if i < 32 then ((d &&& b) ||| ((not32 d) &&& c), (5 * i + 1) % 16)
  else if i < 48 then (b ^^^ c ^^^ d, (3 * i + 5) % 16)
  else (c ^^^ (b ||| (not32 d)), (7 * i) % 16)

/-- One MD5 step. -/
def md5Step (m : List Nat) (st : List Nat) (i : Nat) : List Nat :=
  let a := st.getD 0 0
  let b := st.getD 1 0
  let c := st.getD 2 0
  let d := st.getD 3 0
  let fg := md5FIdx i b c d
  let tmp := add32 (add32 a fg.1) (add32 (md5T.getD i 0) (m.getD fg.2 0))
  [d, add32 b (rotl32 (md5S.getD i 0) tmp), b, c]

/-- Process one 64-byte block. -/
def md5Block (hst : List Nat) (block : List Nat) : List Nat :=
  let m := (chunks 4 block).map wordLE
  let st := (List.range 64).foldl (md5Step m) hst
  (List.range 4).map (fun i => add32 (hst.getD i 0) (st.getD i 0))

/-- MD5 initial state. -/
def md5H0 : List Nat := [1732584193, 4023233417, 2562383102, 271733878]

/-- MD5 digest of a byte list. -/
def md5Bytes (msg : List Nat) : List Nat :=
  let final := (chunks 64 (padMessage false msg)).foldl md5Block md5H0
  (final.map (natToBytesLE 4)).flatten

/-- `hashlib.md5(s.encode()).hexdigest()`. -/
def md5Hex (s : String) : String :=
  bytesToHex (md5Bytes (strBytes s))

/-! ## Python values

Cached payloads are Python dictionaries that are JSON-serialized on `set` and
parsed back on `get`.  Every payload this service serializes (the
`{'transcript': ...}` record, the parsed LLM analysis object, the stats
dictionary) is one level of JSON structure: a dictionary from strings to
atomic values or lists of strings, or a bare atom.  `json.dumps`/`json.loads`
round-tripping is modelled as the identity on these values. -/

/-- An atomic Python/JSON value, or a list of strings. -/
inductive PyAtom where
  | anone
  | abool (b : Bool)
  | aint (n : Int)
  | astr (s : String)
  | astrlist (xs : List String)
deriving DecidableEq, Repr

/-- A Python value as cached by this service. -/
inductive PyVal where
  | pynone
  | pybool (b : Bool)
  | pyint (n : Int)
  | pystr (s : String)
  | pystrlist (xs : List String)
  | pydict (kvs : List (String × PyAtom))
deriving DecidableEq, Repr

/-- Python truthiness (`if value:`) on the modelled values. -/
def truthy : PyVal → Bool
  | .pynone => false
  | .pybool b => b
  | .pyint n => n != 0
  | .pystr s => s != ""
  | .pystrlist xs => !xs.isEmpty
  | .pydict kvs => !kvs.isEmpty

/-- Python `isinstance(value, str)` on the modelled values. -/
def is_string : PyVal → Bool
  | .pystr _ => true
  | _ => false

/-- Python `value.get(k)` for a dictionary value.  (The service only ever
calls `.get` on values it cached as dictionaries; a non-dictionary is mapped
to `None` here.) -/
def pyDictGet (v : PyVal) (k : String) : Option PyAtom :=
  match v with
  | .pydict kvs => kvs.lookup k
  | _ => none

/-- Escape a string for JSON output (backslash and double quote; sufficient
for the payload domain of this model). -/
def jsonEscape (s : String) : String :=
  String.mk ((s.data.map (fun c =>
    if c = '\\' then ['\\', '\\']
    else if c = '"' then ['\\', '"']
    else [c])).flatten)

/-- `json.dumps` of one atom. -/
def dumpsAtom : PyAtom → String
  | .anone => "null"
  | .abool b => if b then "true" else "false"
  | .aint n => toString n
  | .astr s => "\"" ++ jsonEscape s ++ "\""
  | .astrlist xs =>
    "[" ++ String.intercalate ", " (xs.map (fun s => "\"" ++ jsonEscape s ++ "\"")) ++ "]"

/-- `json.dumps(value)` with Python's default separators. -/
def dumps : PyVal → String
  | .pynone => "null"
  | .pybool b => if b then "true" else "false"
  | .pyint n => toString n
  | .pystr s => "\"" ++ jsonEscape s ++ "\""
  | .pystrlist xs =>
    "[" ++ String.intercalate ", " (xs.map (fun s => "\"" ++ jsonEscape s ++ "\"")) ++ "]"
  | .pydict kvs =>
    "\x7b" ++
      String.intercalate ", "
        (kvs.map (fun kv => "\"" ++ jsonEscape kv.1 ++ "\": " ++ dumpsAtom kv.2)) ++
      "\x7d"

/-! ## `app/cache.py` — the SQLite cache

The `cache` table becomes an association list from `key` to the remaining
columns.  `INSERT OR REPLACE` conses the fresh row and drops any previous row
with the same key.  Wall-clock time is an explicit `Nat` measured in minutes
(so that `timedelta(hours=ttl_hours)` becomes `ttl_hours * 60`), and each
operation's `try/except` wrapper becomes an `err : Option String` parameter:
`some msg` means the storage layer raised an exception with text `msg`, and
the operation answers exactly what the Python `except` branch returns. -/

/-- One row of the `cache` table (minus the `key` column, which is the map
key). -/
structure CacheEntry where
  video_id : String
  cache_type : String
  value : PyVal
  content_hash : Option String
  ttl_hours : Nat
  created_at : Nat
deriving DecidableEq, Repr

/-- The cache table. -/
abbrev Store := List (String × CacheEntry)

/-- `generate_cache_key(video_id, cache_type, content_hash=None)`.  The
`if content_hash:` guard is Python truthiness, so an empty-string fingerprint
is not appended. -/
def generate_cache_key (video_id cache_type : String) (content_hash : Option String) : String :=
  let key_str := video_id ++ "|" ++ cache_type
  let key_str :=
    match content_hash with
    | some h => if h = "" then key_str else key_str ++ "|" ++ h
    | none => key_str
  md5Hex key_str

/-- `generate_content_hash(content)`: first 8 hex characters of the SHA-256
digest. -/
def generate_content_hash (content : String) : String :=
  (sha256Hex content).take 8

/-- `delete_cached(key)`. -/
def delete_cached (st : Store) (err : Option String) (key : String) : Bool × Store :=
  match err with
  | some _ => (false, st)
  | none => (true, st.filter (fun p => p.1 != key))

/-- `get_cached(key, ttl_hours=24)`.  Expiry is checked against the
`ttl_hours` argument (`datetime.now() - created_dt > timedelta(hours=ttl_hours)`);
the row's own stored `ttl_hours` column is not consulted here.  An expired
row is deleted and the call returns `None`. -/
def get_cached (st : Store) (err : Option String) (key : String) (ttl_hours : Nat) (now : Nat) :
    Option PyVal × Store :=
  match err with
  | some _ => (none, st)
  | none =>
    match st.lookup key with
    | none => (none, st)
    | some e =>
      if now - e.created_at > ttl_hours * 60 then
        (none, (delete_cached st none key).2)
      else
        (some e.value, st)

/-- `get_cached(key)` with the default `ttl_hours=24`, as every call site in
the repository invokes it. -/
def get_cached_default (st : Store) (err : Option String) (key : String) (now : Nat) :
    Option PyVal × Store :=
  get_cached st err key 24 now

/-- `set_cached(key, video_id, cache_type, value, content_hash=None,
ttl_hours=24)`: `INSERT OR REPLACE`, with `created_at` filled with the
current time by the column default. -/
def set_cached (st : Store) (err : Option String) (key video_id cache_type : String)
    (value : PyVal) (content_hash : Option String) (ttl_hours : Nat) (now : Nat) : Bool × Store :=
  match err with
  | some _ => (false, st)
  | none =>
    (true,
     (key, CacheEntry.mk video_id cache_type value content_hash ttl_hours now)
       :: st.filter (fun p => p.1 != key))

/-- `clear_expired_cache()`: deletes every row with
`datetime(created_at, '+' || ttl_hours || ' hours') < datetime('now')` and
returns the number removed. -/
def clear_expired_cache (st : Store) (err : Option String) (now : Nat) : Nat × Store :=
  match err with
  | some _ => (0, st)
  | none =>
    let keep := st.filter (fun p => !(p.2.created_at + p.2.ttl_hours * 60 < now : Bool))
    (st.length - keep.length, keep)

/-- `clear_cache_by_pattern(cache_type)`: deletes every row of the given
`cache_type` and returns the number removed. -/
def clear_cache_by_pattern (st : Store) (err : Option String) (cache_type : String) : Nat × Store :=
  match err with
  | some _ => (0, st)
  | none =>
    let keep := st.filter (fun p => p.2.cache_type != cache_type)
    (st.length - keep.length, keep)

/-- Round `num / den` to the nearest integer, ties to even (Python's
`round`).  Used for the 2-decimal megabyte figure in the stats. -/
def roundHalfEven (num den : Nat) : Nat :=
  let q := num / den
  let r := num % den
  if 2 * r < den then q
  else if 2 * r > den then q + 1
  else if q % 2 = 0 then q else q + 1

/-- `get_cache_stats()`.  `size_mb` is modelled in hundredths of a megabyte
(an integer) to keep the model free of floating point; `oldest_entry` and
`newest_entry` are the model timestamps.  On a storage exception the source
returns `{"status": "Error", "error": str(e)}`. -/
def get_cache_stats (st : Store) (err : Option String) : PyVal :=
  match err with
  | some msg => .pydict [("status", .astr "Error"), ("error", .astr msg)]
  | none =>
    let total := st.length
    let transcripts := (st.filter (fun p => p.2.cache_type == "transcript")).length
    let llm_analyses := (st.filter (fun p => p.2.cache_type == "llm_analysis")).length
    let size_bytes := (st.map (fun p => (dumps p.2.value).length)).sum
    let created := st.map (fun p => p.2.created_at)
    let oldest : PyAtom :=
      match created.min? with
      | some t => .aint t
      | none => .anone
    let newest : PyAtom :=
      match created.max? with
      | some t => .aint t
      | none => .anone
    .pydict
      [("status", .astr "Connected"),
       ("total_entries", .aint total),
       ("transcripts", .aint transcripts),
       ("llm_analyses", .aint llm_analyses),
       ("size_mb", .aint (roundHalfEven (size_bytes * 100) (1024 * 1024))),
       ("database_file", .astr "data/cache.db"),
       ("oldest_entry", oldest),
       ("newest_entry", newest)]

/-! ## `app/transcript_service.py` — hybrid transcript acquisition

`get_video_transcript` consults the cache and then a chain of providers.  In
the source as it stands, STEP 2 (the official YouTube Data API route, lines
72–80) and STEP 4 (the `youtube-transcript-api` fallback scraper, lines
101–115) are commented out; only STEP 1 (cache) and STEP 3 (the supadata.ai
secondary provider, gated on `SUPADATA_API_KEY`) execute.  The embedding
still takes the would-be outcomes of the primary and fallback providers as
parameters — the function body never consults them, mirroring the source —
and additionally returns the list of provider/cache-write events the run
performed, so that "provider X was never invoked" is expressible. -/

/-- Configuration consumed by `transcript_service` (`app/config.py`):
`SUPADATA_API_KEY` (`None` or the empty string count as not configured, since
the gate is Python truthiness) and the `IS_LOCAL_ENV` classification. -/
structure Config where
  supadata_api_key : Option String
  is_local_env : Bool
deriving DecidableEq, Repr

/-- `if SUPADATA_API_KEY:` — the secondary provider is configured. -/
def supadataConfigured (cfg : Config) : Bool :=
  match cfg.supadata_api_key with
  | some k => k != ""
  | none => false

/-- Outcome of the HTTP request inside `_fetch_via_supdata_api`:
an exception from `requests`, an unparseable body, or a response with a
status code and the JSON body's `content` field.  A missing or falsy
`content` field is collapsed to `""` (both are falsy, and neither can reach
the success path). -/
inductive HttpOutcome where
  | timeout
  | connError
  | invalidJson
  | otherExn (msg : String)
  | response (status : Nat) (content : String)
deriving DecidableEq, Repr

/-- Python's `s.startswith(pre)`, as a kernel-reducible function on the
character lists. -/
def py_startswith (s pre : String) : Bool :=
  pre.data.isPrefixOf s.data

/-- Observable events of one `get_video_transcript` run. -/
inductive ProviderEvent where
  | primaryAttempt
  | supadataAttempt
  | fallbackAttempt
  | cacheWrite (key : String)
deriving DecidableEq, Repr

/-- `_fetch_via_supdata_api(video_id)`: classifies the HTTP status into
`TRANSCRIPT_ERROR` sentinel strings, rejects an empty `content` with a
sentinel, and otherwise returns the transcript text. -/
def fetch_via_supdata_api (o : HttpOutcome) : String :=
  match o with
  | .timeout => "TRANSCRIPT_ERROR: API timeout"
  | .connError => "TRANSCRIPT_ERROR: Connection error"
  | .invalidJson => "TRANSCRIPT_ERROR: Invalid JSON response"
  | .otherExn msg => "TRANSCRIPT_ERROR: " ++ msg
  | .response status content =>
    if status == 401 then "TRANSCRIPT_ERROR: Authentication failed (401)"
    else if status == 429 then "TRANSCRIPT_ERROR: Rate limit exceeded (429)"
    else if status == 404 then "TRANSCRIPT_ERROR: Video not found (404)"
    else if status ≥ 500 then "TRANSCRIPT_ERROR: Server error (" ++ toString status ++ ")"
    else if status ≥ 400 then "TRANSCRIPT_ERROR: Client error (" ++ toString status ++ ")"
    else if content == "" then "TRANSCRIPT_ERROR: Empty transcript"
    else content

/-- `_cache_transcript(cache_key, video_id, transcript)`: wraps the text in a
`{'transcript': ...}` record and stores it with `cache_type="transcript"` and
a 24-hour TTL.  (Its own `try/except` is subsumed by `set_cached`'s `err`
parameter.) -/
def cache_transcript (st : Store) (serr : Option String) (cache_key video_id transcript : String)
    (now : Nat) : Bool × Store :=
  set_cached st serr cache_key video_id "transcript"
    (.pydict [("transcript", .astr transcript)]) none 24 now

/-- `get_video_transcript(video_id)`.  `gerr`/`serr` are the storage-fault
parameters threaded to the cache read and write; `primary` and `fallback` are
the outcomes the commented-out STEP 2 and STEP 4 providers would produce
(never consulted by the body, exactly as in the source); `sup` is the
supadata.ai HTTP outcome.  Returns the result, the new store, and the events
performed. -/
def get_video_transcript (cfg : Config) (st : Store) (gerr serr : Option String) (now : Nat)
    (video_id : String) (primary : Option String) (sup : HttpOutcome) (fallback : Option String) :
    Option PyAtom × Store × List ProviderEvent :=
  let cache_key := generate_cache_key video_id "transcript" none
  let g := get_cached st gerr cache_key 24 now
  match g.1 with
  | some cached => (pyDictGet cached "transcript", g.2, [])
  | none =>
    if supadataConfigured cfg then
      let transcript := fetch_via_supdata_api sup
      if transcript != "" && !(py_startswith transcript "TRANSCRIPT_ERROR") then
        let c := cache_transcript g.2 serr cache_key video_id transcript now
        (some (.astr transcript), c.2, [.supadataAttempt, .cacheWrite cache_key])
      else
        (none, g.2, [.supadataAttempt])
    else
      (none, g.2, [])

/-! ## `app/llm_service.py` — the analysis cache-around wrapper -/

/-- Outcome of the LLM chain invocation inside `analyze_with_llm`'s `_call`:
either the parsed JSON object of the model reply, or an exception (a failed
invocation or an unparseable reply — both are caught and re-raised as
`ValueError("Error in analyze_with_llm!")`). -/
inductive LLMOutcome where
  | ok (v : PyVal)
  | exn
deriving DecidableEq, Repr

/-- `analyze_with_llm(video_id, transcript, comments)`.  Derives the content
fingerprint from `transcript` plus the first 5 comments, checks the cache,
short-circuits to `{}` on entirely empty input, otherwise consults the LLM
outcome; a success that is truthy and not a string is written through with a
24-hour TTL and the fingerprint; an exception propagates as
`ValueError("Error in analyze_with_llm!")` (the `Except.error` case) and
nothing is written. -/
def analyze_with_llm (st : Store) (gerr serr : Option String) (now : Nat)
    (video_id transcript : String) (comments : List String) (llm : LLMOutcome) :
    Except String PyVal × Store :=
  let content := transcript ++ String.join (comments.take 5)
  let content_hash := generate_content_hash content
  let cache_key := generate_cache_key video_id "llm_analysis" (some content_hash)
  let g := get_cached st gerr cache_key 24 now
  match g.1 with
  | some cached => (.ok cached, g.2)
  | none =>
    let callResult : Option PyVal :=
      if transcript == "" && comments.isEmpty then some (.pydict [])
      else
        match llm with
        | .ok v => some v
        | .exn => none
    match callResult with
    | none => (.error "Error in analyze_with_llm!", g.2)
    | some v =>
      if truthy v && !(is_string v) then
        let s := set_cached g.2 serr cache_key video_id "llm_analysis" v (some content_hash) 24 now
        (.ok v, s.2)
      else
        (.ok v, g.2)

/-! ## Helper lemmas -/

/-- Decidable equality on `Except`, for evaluating `analyze_with_llm`
results on concrete inputs. -/
instance instDecEqExcept (ε α : Type) [DecidableEq ε] [DecidableEq α] :
    DecidableEq (Except ε α) := fun a b =>
  match a, b with
  | .ok x, .ok y =>
    if h : x = y then isTrue (by rw [h]) else isFalse (by intro hc; cases hc; exact h rfl)
  | .error x, .error y =>
    if h : x = y then isTrue (by rw [h]) else isFalse (by intro hc; cases hc; exact h rfl)
  | .ok _, .error _ => isFalse (by intro hc; cases hc)
  | .error _, .ok _ => isFalse (by intro hc; cases hc)

/-- Looking up the key of the head of an association list finds the head. -/
theorem lookup_cons_self (k : String) (e : CacheEntry) (l : Store) :
    ((k, e) :: l).lookup k = some e := by
  simp [List.lookup]

/-- After filtering out every pair with key `k`, looking up `k` finds
nothing. -/
theorem lookup_filter_self_none (l : Store) (k : String) :
    (l.filter (fun p => p.1 != k)).lookup k = none := by
  induction l with
  | nil => simp
  | cons hd tl ih =>
    by_cases h : hd.1 = k
    · simp [List.filter_cons, h, ih]
    · have hne : (k == hd.1) = false := beq_false_of_ne (fun hh => h hh.symm)
      simp [List.filter_cons, h, List.lookup, hne, ih]

/-- A filter that keeps the binding of `k` does not change what `lookup k`
finds. -/
theorem lookup_filter_of_holds (q : String × CacheEntry → Bool) (l : Store) (k : String)
    (e : CacheEntry) (h : l.lookup k = some e) (hq : q (k, e) = true) :
    (l.filter q).lookup k = some e := by
  induction l with
  | nil => simp at h
  | cons hd tl ih =>
    rcases hd with ⟨k₁, e₁⟩
    by_cases hk : k = k₁
    · subst hk
      simp [List.lookup] at h
      subst h
      simp [List.filter_cons, hq, List.lookup]
    · have hne : (k == k₁) = false := beq_false_of_ne hk
      simp [List.lookup, hne] at h
      by_cases hkeep : q (k₁, e₁) = true
      · simp [List.filter_cons, hkeep, List.lookup, hne, ih h]
      · simp at hkeep
        simp [List.filter_cons, hkeep, ih h]

/-- A cache read whose key is absent is a miss that leaves the store
untouched, whatever the fault parameter. -/
theorem get_cached_of_lookup_none (st : Store) (gerr : Option String) (key : String)
    (ttl_hours now : Nat) (h : st.lookup key = none) :
    get_cached st gerr key ttl_hours now = (none, st) := by
  cases gerr <;> simp [get_cached, h]

/-! ## Sanity checks of the digest implementations (NIST / RFC 1321 test
vectors, cross-checked against `hashlib`) -/

example : sha256Hex "" =
    "e3b0c44298fc1c149afbf4c8996fb92427ae41e4649b934ca495991b7852b855" := by decide

example : sha256Hex "abc" =
    "ba7816bf8f01cfea414140de5dae2223b00361a396177a9cb410ff61f20015ad" := by decide

example : md5Hex "" = "d41d8cd98f00b204e9800998ecf8427e" := by decide

example : md5Hex "abc" = "900150983cd24fb0d6963f7d28e17f72" := by decide

/-! ## The claims -/

/-- C1, the claim as stated is false on the code: `get_cached` evaluates
expiry against its own `ttl_hours` argument (default 24), not against the
entry's stored `ttl_hours`.  Concretely: an entry written with
`ttl_hours = 1` at time 0 and read through the default `get` 61 minutes
later is still returned, and the entry is not deleted — the claim requires
absent-and-deleted. -/
theorem C1_counterexample :
    (get_cached_default
      ((set_cached [] none "k1" "vid1" "transcript"
          (.pydict [("transcript", .astr "hello")]) none 1 0).2)
      none "k1" 61).1
      = some (.pydict [("transcript", .astr "hello")])
    ∧ (get_cached_default
        ((set_cached [] none "k1" "vid1" "transcript"
            (.pydict [("transcript", .astr "hello")]) none 1 0).2)
        none "k1" 61).2
        = (set_cached [] none "k1" "vid1" "transcript"
            (.pydict [("transcript", .astr "hello")]) none 1 0).2 := by
  constructor <;> decide

/-- C1 (amended): TTL expiry on read is evaluated against the `ttl_hours`
argument passed to `get` (default 24), not the entry's stored `ttlHours`.
For every key written via `set` with `ttlHours = 1`: a read performed
immediately returns the stored payload (with either ttl argument); a read
61 minutes later with the matching `ttl_hours = 1` argument returns absent
and deletes the entry as a side effect; but the default read still returns
the payload 61 minutes later.  Data expired relative to the `ttl_hours`
argument of the read is never returned. -/
theorem C1_ttl_read_uses_argument (st : Store) (key vid : String) (val : PyVal)
    (ch : Option String) (t0 : Nat) :
    (get_cached ((set_cached st none key vid "transcript" val ch 1 t0).2) none key 1 t0).1
      = some val
    ∧ (get_cached_default ((set_cached st none key vid "transcript" val ch 1 t0).2)
        none key t0).1 = some val
    ∧ (get_cached_default ((set_cached st none key vid "transcript" val ch 1 t0).2)
        none key (t0 + 61)).1 = some val
    ∧ (get_cached ((set_cached st none key vid "transcript" val ch 1 t0).2)
        none key 1 (t0 + 61)).1 = none
    ∧ ((get_cached ((set_cached st none key vid "transcript" val ch 1 t0).2)
        none key 1 (t0 + 61)).2).lookup key = none := by
  have hset :
      (set_cached st none key vid "transcript" val ch 1 t0).2
        = (key, CacheEntry.mk vid "transcript" val ch 1 t0)
            :: st.filter (fun p => p.1 != key) := rfl
  refine ⟨?_, ?_, ?_, ?_, ?_⟩ <;>
    simp [hset, get_cached, get_cached_default, delete_cached, lookup_cons_self,
      lookup_filter_self_none, Nat.add_sub_cancel_left, List.filter_cons]

/-- C6: with a storage-layer exception (`err = some msg`), every cache
operation degrades without letting the exception escape: `get` to a miss,
`set` and `delete` to a `False` result, the expiry sweep and the category
clear to a deleted-count of 0, and `stats` to the explicit
`{"status": "Error", ...}` value — and none of them changes the store. -/
theorem C6_storage_errors_degrade (st : Store) (msg key vid ct : String) (val : PyVal)
    (ch : Option String) (ttl now : Nat) :
    get_cached st (some msg) key ttl now = (none, st)
    ∧ set_cached st (some msg) key vid ct val ch ttl now = (false, st)
    ∧ delete_cached st (some msg) key = (false, st)
    ∧ clear_expired_cache st (some msg) now = (0, st)
    ∧ clear_cache_by_pattern st (some msg) ct = (0, st)
    ∧ get_cache_stats st (some msg)
        = .pydict [("status", .astr "Error"), ("error", .astr msg)] := by
  refine ⟨rfl, rfl, rfl, rfl, rfl, rfl⟩

/-- C10: cache-key derivation is not injective — the delimiter-concatenated
pre-image of `("a|transcript", "x", no fingerprint)` coincides with that of
`("a", "transcript", fingerprint "x")`, so the two distinct input tuples
derive the same key, and two writes through those two tuples land on (and
the second overwrites) one and the same cache entry. -/
theorem C10_key_derivation_not_injective :
    generate_cache_key "a|transcript" "x" none
      = generate_cache_key "a" "transcript" (some "x")
    ∧ (("a|transcript", "x", (none : Option String))
        ≠ (("a", "transcript", some "x") : String × String × Option String))
    ∧ ((set_cached
          ((set_cached [] none (generate_cache_key "a|transcript" "x" none)
              "a|transcript" "x" (.pystr "first") none 24 0).2)
          none (generate_cache_key "a" "transcript" (some "x"))
          "a" "transcript" (.pystr "second") none 24 0).2).length = 1
    ∧ (((set_cached
          ((set_cached [] none (generate_cache_key "a|transcript" "x" none)
              "a|transcript" "x" (.pystr "first") none 24 0).2)
          none (generate_cache_key "a" "transcript" (some "x"))
          "a" "transcript" (.pystr "second") none 24 0).2).lookup
            (generate_cache_key "a|transcript" "x" none)).map CacheEntry.value
        = some (.pystr "second") := by
  refine ⟨rfl, by decide, by decide, by decide⟩

/-- C2: when every live provider attempt fails (the supadata.ai result is
empty or carries the error sentinel — whether or not the provider is even
configured), transcript acquisition returns absent, leaves the store exactly
as it was, and in particular leaves zero entries under the key derived from
`(video_id, "transcript", no fingerprint)`: a failure is never cached. -/
theorem C2_provider_failure_writes_nothing
    (cfg : Config) (st : Store) (gerr serr : Option String) (now : Nat)
    (video_id : String) (primary fallback : Option String) (sup : HttpOutcome)
    (hmiss : st.lookup (generate_cache_key video_id "transcript" none) = none)
    (hfail : fetch_via_supdata_api sup = ""
      ∨ py_startswith (fetch_via_supdata_api sup) "TRANSCRIPT_ERROR" = true) :
    (get_video_transcript cfg st gerr serr now video_id primary sup fallback).1 = none
    ∧ (get_video_transcript cfg st gerr serr now video_id primary sup fallback).2.1 = st
    ∧ ((get_video_transcript cfg st gerr serr now video_id primary sup fallback).2.1).lookup
        (generate_cache_key video_id "transcript" none) = none := by
  have hget := get_cached_of_lookup_none st gerr
    (generate_cache_key video_id "transcript" none) 24 now hmiss
  have hcond : (fetch_via_supdata_api sup != ""
      && !(py_startswith (fetch_via_supdata_api sup) "TRANSCRIPT_ERROR")) = false := by
    rcases hfail with h | h <;> simp [h]
  cases hsc : supadataConfigured cfg <;>
    simp [get_video_transcript, hget, hsc, hcond, hmiss]

/-- Witness for C2 at a concrete input: empty store, supadata configured but
answering 404 for video `"abc123"`. -/
theorem C2_witness :
    (get_video_transcript (Config.mk (some "sk") true) [] none none 0 "abc123"
        none (.response 404 "") none).1 = none
    ∧ (get_video_transcript (Config.mk (some "sk") true) [] none none 0 "abc123"
        none (.response 404 "") none).2.1 = []
    ∧ (((get_video_transcript (Config.mk (some "sk") true) [] none none 0 "abc123"
        none (.response 404 "") none).2.1).lookup
          (generate_cache_key "abc123" "transcript" none)) = none :=
  C2_provider_failure_writes_nothing (Config.mk (some "sk") true) [] none none 0 "abc123"
    none none (.response 404 "") (by decide) (Or.inr (by decide))

/-- C7: with the environment classified as cloud (`IS_LOCAL_ENV = false`),
the fallback scraper is never executed even when every prior provider fails,
and the acquisition result is absent.  (In the source as it stands the
fallback step is commented out, so it never runs in any environment; the
cloud-gated claim holds a fortiori.) -/
theorem C7_cloud_never_runs_fallback
    (cfg : Config) (st : Store) (gerr serr : Option String) (now : Nat)
    (video_id : String) (primary fallback : Option String) (sup : HttpOutcome)
    (hcloud : cfg.is_local_env = false)
    (hmiss : st.lookup (generate_cache_key video_id "transcript" none) = none)
    (hfail : fetch_via_supdata_api sup = ""
      ∨ py_startswith (fetch_via_supdata_api sup) "TRANSCRIPT_ERROR" = true) :
    (get_video_transcript cfg st gerr serr now video_id primary sup fallback).1 = none
    ∧ ProviderEvent.fallbackAttempt
        ∉ (get_video_transcript cfg st gerr serr now video_id primary sup fallback).2.2 := by
  have hget := get_cached_of_lookup_none st gerr
    (generate_cache_key video_id "transcript" none) 24 now hmiss
  have hcond : (fetch_via_supdata_api sup != ""
      && !(py_startswith (fetch_via_supdata_api sup) "TRANSCRIPT_ERROR")) = false := by
    rcases hfail with h | h <;> simp [h]
  cases hsc : supadataConfigured cfg <;>
    simp [get_video_transcript, hget, hsc, hcond]

/-- Witness for C7 at a concrete input: cloud environment, configured
supadata provider timing out. -/
theorem C7_witness :
    (get_video_transcript (Config.mk (some "sk") false) [] none none 0 "abc123"
        none .timeout none).1 = none
    ∧ ProviderEvent.fallbackAttempt
        ∉ (get_video_transcript (Config.mk (some "sk") false) [] none none 0 "abc123"
            none .timeout none).2.2 :=
  C7_cloud_never_runs_fallback (Config.mk (some "sk") false) [] none none 0 "abc123"
    none none .timeout rfl (by decide) (Or.inr (by decide))

/-- C8: provider-output classification.  A supadata.ai response whose status
is not an HTTP error but whose content is empty yields the
`"TRANSCRIPT_ERROR: Empty transcript"` sentinel; and any provider output
that is empty or sentinel-marked is classified as failure by the state
machine: the acquisition advances (here: to the all-failed absent result)
rather than succeeding, the output is never returned as transcript content,
and nothing is written to the cache. -/
theorem C8_error_sentinel_classification
    (status : Nat) (hstatus : status < 400)
    (cfg : Config) (st : Store) (gerr serr : Option String) (now : Nat)
    (video_id : String) (primary fallback : Option String) (sup : HttpOutcome)
    (hmiss : st.lookup (generate_cache_key video_id "transcript" none) = none)
    (hfail : fetch_via_supdata_api sup = ""
      ∨ py_startswith (fetch_via_supdata_api sup) "TRANSCRIPT_ERROR" = true) :
    fetch_via_supdata_api (.response status "") = "TRANSCRIPT_ERROR: Empty transcript"
    ∧ (get_video_transcript cfg st gerr serr now video_id primary sup fallback).1 = none
    ∧ ∀ k, ProviderEvent.cacheWrite k
        ∉ (get_video_transcript cfg st gerr serr now video_id primary sup fallback).2.2 := by
  have hget := get_cached_of_lookup_none st gerr
    (generate_cache_key video_id "transcript" none) 24 now hmiss
  have hcond : (fetch_via_supdata_api sup != ""
      && !(py_startswith (fetch_via_supdata_api sup) "TRANSCRIPT_ERROR")) = false := by
    rcases hfail with h | h <;> simp [h]
  have hempty : fetch_via_supdata_api (.response status "") =
      "TRANSCRIPT_ERROR: Empty transcript" := by
    have h401 : (status == 401) = false := by
      simp only [beq_eq_false_iff_ne]; omega
    have h429 : (status == 429) = false := by
      simp only [beq_eq_false_iff_ne]; omega
    have h500 : ¬(status ≥ 500) := by omega
    have h400 : ¬(status ≥ 400) := by omega
    have h404 : (status == 404) = false := by
      simp only [beq_eq_false_iff_ne]; omega
    simp [fetch_via_supdata_api, h401, h429, h404, h500, h400]
  refine ⟨hempty, ?_, ?_⟩ <;>
    cases hsc : supadataConfigured cfg <;>
      simp [get_video_transcript, hget, hsc, hcond]

/-- Witness for C8 at a concrete input: an HTTP 200 response with empty
content for video `"abc123"`. -/
theorem C8_witness :
    fetch_via_supdata_api (.response 200 "") = "TRANSCRIPT_ERROR: Empty transcript"
    ∧ (get_video_transcript (Config.mk (some "sk") true) [] none none 0 "abc123"
        none (.response 200 "") none).1 = none
    ∧ ∀ k, ProviderEvent.cacheWrite k
        ∉ (get_video_transcript (Config.mk (some "sk") true) [] none none 0 "abc123"
            none (.response 200 "") none).2.2 :=
  C8_error_sentinel_classification 200 (by decide) (Config.mk (some "sk") true) [] none none 0
    "abc123" none none (.response 200 "") (by decide) (Or.inr (by decide))

/-- C3, evidence for the divergence between the documented provider chain
and the code: at the failing input — empty cache, local environment,
supadata configured but answering 404, the primary (official metadata-API)
provider configured and able to return a transcript — the claimed chain
would attempt the primary provider first and return its output, but the
code (whose STEP 2 and STEP 4 are commented out) never invokes the primary
provider at all: the run performs only the supadata attempt, its result is
absent rather than the primary provider's output, and the outcome is
independent of whatever the primary provider would have produced. -/
theorem C3_primary_provider_never_invoked :
    (get_video_transcript (Config.mk (some "sk") true) [] none none 0 "abc123"
        (some "official captions transcript") (.response 404 "") none).1 = none
    ∧ (get_video_transcript (Config.mk (some "sk") true) [] none none 0 "abc123"
        (some "official captions transcript") (.response 404 "") none).2.2
        = [ProviderEvent.supadataAttempt]
    ∧ ∀ p : Option String,
        get_video_transcript (Config.mk (some "sk") true) [] none none 0 "abc123"
            p (.response 404 "") none
          = get_video_transcript (Config.mk (some "sk") true) [] none none 0 "abc123"
              (some "official captions transcript") (.response 404 "") none := by
  refine ⟨by decide, by decide, fun p => rfl⟩

/-- C4: the analysis cache key incorporates the 8-hex-character SHA-256
fingerprint of the transcript plus the first five comments, so
`analyze("v1", "transcript A", [])` followed by `analyze("v1",
"transcript B", [])` derives two distinct keys and leaves two independent
cache entries — the second call does not reuse the first call's cached
result, and both payloads are retrievable under their own keys. -/
theorem C4_content_change_invalidation :
    generate_cache_key "v1" "llm_analysis" (some (generate_content_hash "transcript A"))
      ≠ generate_cache_key "v1" "llm_analysis" (some (generate_content_hash "transcript B"))
    ∧ (analyze_with_llm [] none none 0 "v1" "transcript A" []
        (.ok (.pydict [("review_tone", .astr "positive")]))).1
      = .ok (.pydict [("review_tone", .astr "positive")])
    ∧ (analyze_with_llm
        (analyze_with_llm [] none none 0 "v1" "transcript A" []
          (.ok (.pydict [("review_tone", .astr "positive")]))).2
        none none 0 "v1" "transcript B" []
        (.ok (.pydict [("review_tone", .astr "negative")]))).1
      = .ok (.pydict [("review_tone", .astr "negative")])
    ∧ (((analyze_with_llm
        (analyze_with_llm [] none none 0 "v1" "transcript A" []
          (.ok (.pydict [("review_tone", .astr "positive")]))).2
        none none 0 "v1" "transcript B" []
        (.ok (.pydict [("review_tone", .astr "negative")]))).2).lookup
          (generate_cache_key "v1" "llm_analysis"
            (some (generate_content_hash "transcript A")))).map CacheEntry.value
      = some (.pydict [("review_tone", .astr "positive")])
    ∧ (((analyze_with_llm
        (analyze_with_llm [] none none 0 "v1" "transcript A" []
          (.ok (.pydict [("review_tone", .astr "positive")]))).2
        none none 0 "v1" "transcript B" []
        (.ok (.pydict [("review_tone", .astr "negative")]))).2).lookup
          (generate_cache_key "v1" "llm_analysis"
            (some (generate_content_hash "transcript B")))).map CacheEntry.value
      = some (.pydict [("review_tone", .astr "negative")])
    ∧ ((analyze_with_llm
        (analyze_with_llm [] none none 0 "v1" "transcript A" []
          (.ok (.pydict [("review_tone", .astr "positive")]))).2
        none none 0 "v1" "transcript B" []
        (.ok (.pydict [("review_tone", .astr "negative")]))).2).length = 2 := by
  refine ⟨by decide, by decide, by decide, by decide, by decide, by decide⟩

/-- C5, the claim as stated is false on the code in one corner: "cache state
unchanged on error".  The cache read performed before the external call
lazily evicts an expired entry under the derived key, so when the external
call then raises, the error propagates and nothing is written — but the
store is not identical to what it was: the expired entry is gone.
Concretely: one expired analysis entry, the LLM call raises, the result is
the classified error, and the store has become empty. -/
theorem C5_counterexample :
    (analyze_with_llm
      ((set_cached [] none
          (generate_cache_key "v1" "llm_analysis" (some (generate_content_hash "transcript A")))
          "v1" "llm_analysis" (.pydict [("old", .astr "x")])
          (some (generate_content_hash "transcript A")) 24 0).2)
      none none 1441 "v1" "transcript A" [] .exn).1
      = .error "Error in analyze_with_llm!"
    ∧ (analyze_with_llm
        ((set_cached [] none
            (generate_cache_key "v1" "llm_analysis" (some (generate_content_hash "transcript A")))
            "v1" "llm_analysis" (.pydict [("old", .astr "x")])
            (some (generate_content_hash "transcript A")) 24 0).2)
        none none 1441 "v1" "transcript A" [] .exn).2
      ≠ (set_cached [] none
          (generate_cache_key "v1" "llm_analysis" (some (generate_content_hash "transcript A")))
          "v1" "llm_analysis" (.pydict [("old", .astr "x")])
          (some (generate_content_hash "transcript A")) 24 0).2 := by
  refine ⟨by decide, by decide⟩

/-- C5 (amended): on a cache miss, the wrapper writes a cache entry —
category `llm_analysis`, TTL 24 hours, tagged with the computed content
fingerprint — if and only if the external call succeeds with a truthy,
non-string structured result; if the external call raises, the classified
error `ValueError("Error in analyze_with_llm!")` propagates to the caller
and nothing is written: the resulting store is exactly the store left by the
initial cache read (which may differ from the argument store only by the
lazy eviction of an expired entry under the derived key). -/
theorem C5_error_propagates_and_write_iff_success
    (st : Store) (gerr : Option String) (now : Nat) (video_id transcript : String)
    (comments : List String) (llm : LLMOutcome)
    (hmiss : (get_cached st gerr
        (generate_cache_key video_id "llm_analysis"
          (some (generate_content_hash (transcript ++ String.join (comments.take 5)))))
        24 now).1 = none)
    (hnonempty : (transcript == "" && comments.isEmpty) = false) :
    (llm = .exn →
      analyze_with_llm st gerr none now video_id transcript comments llm
        = (.error "Error in analyze_with_llm!",
           (get_cached st gerr
             (generate_cache_key video_id "llm_analysis"
               (some (generate_content_hash (transcript ++ String.join (comments.take 5)))))
             24 now).2))
    ∧ ∀ v : PyVal, llm = .ok v →
        (analyze_with_llm st gerr none now video_id transcript comments llm).1 = .ok v
        ∧ (analyze_with_llm st gerr none now video_id transcript comments llm).2
          = (if truthy v && !(is_string v) then
               (set_cached
                 (get_cached st gerr
                   (generate_cache_key video_id "llm_analysis"
                     (some (generate_content_hash
                       (transcript ++ String.join (comments.take 5))))) 24 now).2
                 none
                 (generate_cache_key video_id "llm_analysis"
                   (some (generate_content_hash (transcript ++ String.join (comments.take 5)))))
                 video_id "llm_analysis" v
                 (some (generate_content_hash (transcript ++ String.join (comments.take 5))))
                 24 now).2
             else
               (get_cached st gerr
                 (generate_cache_key video_id "llm_analysis"
                   (some (generate_content_hash
                     (transcript ++ String.join (comments.take 5))))) 24 now).2) := by
  constructor
  · intro hexn
    subst hexn
    simp [analyze_with_llm, hmiss, hnonempty]
  · intro v hok
    subst hok
    constructor
    · simp only [analyze_with_llm, hmiss, hnonempty]
      cases hw : truthy v && !(is_string v) <;> simp [hw]
    · simp only [analyze_with_llm, hmiss, hnonempty]
      cases hw : truthy v && !(is_string v) <;> simp [hw]

/-- Witness for C5 at a concrete input: empty store, non-empty transcript,
an LLM success whose parsed result is a non-empty dictionary. -/
theorem C5_witness :
    analyze_with_llm [] none none 0 "v1" "some transcript" [] .exn
      = (.error "Error in analyze_with_llm!",
         (get_cached [] none
           (generate_cache_key "v1" "llm_analysis"
             (some (generate_content_hash
               ("some transcript" ++ String.join (([] : List String).take 5)))))
           24 0).2) := by
  exact (C5_error_propagates_and_write_iff_success [] none 0 "v1" "some transcript" [] .exn
    (by decide) (by decide)).1 rfl

/-- C9: category-scoped bulk clear.  After writing three `transcript`
entries and two `llm_analysis` entries under five distinct keys,
`clear_cache_by_pattern("transcript")` reports a deleted-count of 3 and the
store retains exactly the two analysis entries; and in general any entry of
a different category survives a category clear unchanged. -/
theorem C9_clear_by_category_frame
    (st : Store) (ct k : String) (e : CacheEntry)
    (hk : st.lookup k = some e) (hne : e.cache_type ≠ ct) :
    clear_cache_by_pattern
      ((set_cached
        ((set_cached
          ((set_cached
            ((set_cached
              ((set_cached [] none "t1" "vidA" "transcript" (.pystr "pA") none 24 0).2)
              none "t2" "vidB" "transcript" (.pystr "pB") none 24 0).2)
            none "t3" "vidC" "transcript" (.pystr "pC") none 24 0).2)
          none "a1" "vidA" "llm_analysis" (.pystr "qA") none 24 0).2)
        none "a2" "vidB" "llm_analysis" (.pystr "qB") none 24 0).2)
      none "transcript"
      = (3, [("a2", CacheEntry.mk "vidB" "llm_analysis" (.pystr "qB") none 24 0),
             ("a1", CacheEntry.mk "vidA" "llm_analysis" (.pystr "qA") none 24 0)])
    ∧ ((clear_cache_by_pattern st none ct).2).lookup k = some e := by
  constructor
  · decide
  · have hq : (fun p : String × CacheEntry => p.2.cache_type != ct) (k, e) = true := by
      simp [hne]
    exact lookup_filter_of_holds _ st k e hk hq

/-- Witness for C9 at a concrete input: a one-entry store of category
`llm_analysis` survives clearing the `transcript` category. -/
theorem C9_witness :
    ((clear_cache_by_pattern
        [("a1", CacheEntry.mk "vidA" "llm_analysis" (.pystr "qA") none 24 0)]
        none "transcript").2).lookup "a1"
      = some (CacheEntry.mk "vidA" "llm_analysis" (.pystr "qA") none 24 0) :=
  (C9_clear_by_category_frame
    [("a1", CacheEntry.mk "vidA" "llm_analysis" (.pystr "qA") none 24 0)]
    "transcript" "a1" (CacheEntry.mk "vidA" "llm_analysis" (.pystr "qA") none 24 0)
    (by decide) (by decide)).2

end App
